import Mathlib

/-!
Verification of the one-shot gzip encoder driver in gz_the_works.c.

The program is a single linear call sequence into the zlib compression
library: initialize a gzip-wrapped deflate context, attach a populated
gzip header record, compress one fixed in-memory text buffer into a
fixed 256-byte output buffer with a single finalizing call, tear the
context down, and write the produced bytes to standard output.

The embedding has two layers.

1. A control-flow layer: the function called main below mirrors the C
   main line by line, parameterized by the observable behavior of the
   library calls (the return code of deflateInit2, the return code of
   deflate, and the output-buffer state after deflate).  A Trace records
   the exit code, the bytes written to standard output, and which
   library operations ran.

2. A byte-format layer for the produced gzip member.  The compression
   library itself is not part of this repository, so the gzip framing it
   produces is modelled from the specification of the output (a gzip
   member per RFC 1952: fixed header, extra field, filename, comment,
   header CRC16, deflate payload, CRC32 and size trailer), with the
   header field values taken from the source.  The deflate
   entropy coder is kept abstract as a Codec pair of functions.
-/

set_option maxRecDepth 2000

namespace GzTheWorks

/-- zlib status code Z_OK. -/
def Z_OK : Int := 0

/-- zlib status code Z_STREAM_END, returned by deflate when the stream
was fully consumed and finalized. -/
def Z_STREAM_END : Int := 1

/-- Byte values of a C string literal from the source (all characters
involved are ASCII, so the code point is the byte). -/
def strBytes (s : String) : List Nat := s.data.map Char.toNat

/-- The TEXT macro of the source, lines 10 and 11. -/
def TEXT : String :=
  "This is a test of the emergency broadcast system.\nRemember, this is only a test.\n"

/-- The input buffer handed to the compressor: the bytes of TEXT without
a terminating NUL, matching strlen(TEXT) on line 30. -/
def textBytes : List Nat := strBytes TEXT

/-- The extra-field bytes of line 23 of the source: the string literal
with escapes, x 1 0x04 0x00 a b c d, of length 8 (line 24). -/
def extraBytes : List Nat := [120, 49, 4, 0, 97, 98, 99, 100]

/-- The header filename of line 25 of the source. -/
def nameBytes : List Nat := strBytes "foo.bar"

/-- The header comment of line 26 of the source. -/
def commentBytes : List Nat := strBytes "no comment"

/-- One bit-step of the reflected CRC-32 with polynomial 0xEDB88320,
as used by the gzip format for both the trailer CRC32 and the header
CRC16 (low 16 bits of a CRC32 over the header bytes). -/
def crc32Step (c : Nat) : Nat :=
  if c % 2 = 1 then (c / 2) ^^^ 0xEDB88320 else c / 2

/-- Fold one input byte into a CRC-32 accumulator (eight bit-steps). -/
def crc32Byte (c b : Nat) : Nat :=
  crc32Step (crc32Step (crc32Step (crc32Step
    (crc32Step (crc32Step (crc32Step (crc32Step (c ^^^ (b % 256)))))))))

/-- Fold a byte list into a CRC-32 accumulator. -/
def crc32Acc (a : Nat) (bs : List Nat) : Nat := bs.foldl crc32Byte a

/-- CRC-32 of a byte list (initial value and final xor 0xFFFFFFFF). -/
def crc32 (bs : List Nat) : Nat :=
  crc32Acc 4294967295 bs ^^^ 4294967295

/-- The four little-endian bytes of a 32-bit value. -/
def le32bytes (n : Nat) : List Nat :=
  [n % 256, n / 256 % 256, n / 65536 % 256, n / 16777216 % 256]

/-- Read a 32-bit value from four little-endian bytes. -/
def le32 (bs : List Nat) : Nat :=
  match bs with
  | [a, b, c, d] => a + 256 * b + 65536 * c + 16777216 * d
  | _ => 0

/-- An abstract deflate entropy coder: the compression library is an
external collaborator, so only the interface is embedded.  compress is
the raw-deflate payload the library produces for a buffer, decompress
its inverse (a standards-compliant decoder). -/
structure Codec where
  compress : List Nat → List Nat
  decompress : List Nat → Option (List Nat)

/-- The identity coder, a trivially lossless Codec used for witnesses. -/
def idCodec : Codec := { compress := fun l => l, decompress := fun l => some l }

/-- Modelled from the spec: the 10-byte fixed gzip header region the
library emits for this program.  Magic bytes 31 and 139, method 8
(deflate), flag byte with text-hint, header-CRC, extra, name and
comment bits all set (1+2+4+8+16 = 31, from lines 20 and 23 to 27 of
the source), the 4-byte little-endian modification time, an extra-flags
byte, and originating-OS byte 3 (line 22). -/
def headerPrefix (mtime : Nat) : List Nat :=
  [31, 139, 8, 31] ++ le32bytes mtime ++ [0, 3]

/-- Modelled from the spec: the extra-field block, a 2-byte
little-endian length prefix of 8 followed by the 8 literal bytes. -/
def extraBlock : List Nat := [8, 0] ++ extraBytes

/-- Modelled from the spec: all header bytes before the header CRC16:
fixed region, extra block, NUL-terminated filename, NUL-terminated
comment. -/
def headerNoCrc (mtime : Nat) : List Nat :=
  headerPrefix mtime ++ extraBlock ++ nameBytes ++ [0] ++ commentBytes ++ [0]

/-- Modelled from the spec: the 2-byte header CRC16, the low 16 bits of
the CRC-32 over all preceding header bytes, little-endian. -/
def hcrcBytes (mtime : Nat) : List Nat :=
  [crc32 (headerNoCrc mtime) % 65536 % 256, crc32 (headerNoCrc mtime) % 65536 / 256]

/-- Modelled from the spec: the full gzip member the program writes on a
successful run: header, header CRC16, deflate payload of the fixed
text, then the trailer holding the CRC-32 of the uncompressed input and
its length modulo 2 to the 32. -/
def memberOf (mtime : Nat) (c : Codec) : List Nat :=
  headerNoCrc mtime ++ hcrcBytes mtime ++ c.compress textBytes
    ++ le32bytes (crc32 textBytes) ++ le32bytes (textBytes.length % 4294967296)

/-- The fields a gzip decoder extracts from a member. -/
structure GzFields where
  mtime : Nat
  flg : Nat
  os : Nat
  extra : List Nat
  name : List Nat
  comment : List Nat
  payload : List Nat
  crc : Nat
  isize : Nat
  deriving DecidableEq

/-- Read a NUL-terminated byte string, returning it with the remainder
after the NUL. -/
def parseCString : List Nat → Option (List Nat × List Nat)
  | [] => none
  | b :: bs =>
    if b = 0 then some ([], bs)
    else
      match parseCString bs with
      | some (s, r) => some (b :: s, r)
      | none => none

/-- Modelled from the spec: a standards-compliant gzip member decoder
for the member shape this program produces (extra, name, comment and
header-CRC fields all present): it reads the fixed header region, the
length-prefixed extra field, the two NUL-terminated strings, skips the
2-byte header CRC16, and splits the remainder into the deflate payload
and the 8-byte trailer. -/
def parseMember (m : List Nat) : Option GzFields :=
  match m with
  | 31 :: 139 :: 8 :: flg :: t0 :: t1 :: t2 :: t3 :: _xfl :: os :: x0 :: x1 :: rest =>
    let xlen := x0 + 256 * x1
    match parseCString (rest.drop xlen) with
    | some (name, r2) =>
      match parseCString r2 with
      | some (comment, r3) =>
        match r3 with
        | _h0 :: _h1 :: r4 =>
          if r4.length < 8 then none
          else
            some { mtime := t0 + 256 * t1 + 65536 * t2 + 16777216 * t3,
                   flg := flg, os := os,
                   extra := rest.take xlen, name := name, comment := comment,
                   payload := r4.take (r4.length - 8),
                   crc := le32 ((r4.drop (r4.length - 8)).take 4),
                   isize := le32 ((r4.drop (r4.length - 8)).drop 4) }
        | _ => none
      | _ => none
    | none => none
  | _ => none

/-- The behavior of the compression library observable to main in one
run: the return code of deflateInit2 (line 15), the return code of
deflate with Z_FINISH (line 35), and the state of the 256-byte output
buffer after deflate — its contents and the remaining avail_out.  The
two proof fields record the buffer discipline of the library: the
buffer keeps its 256 bytes, and avail_out never exceeds its initial
value sizeof(out) = 256. -/
structure ZlibBehavior where
  initRet : Int
  deflateRet : Int
  outAfter : List Nat
  availOutAfter : Nat
  hout : outAfter.length = 256
  havail : availOutAfter ≤ 256

/-- What one run of the program did: its exit status, the bytes it
wrote to standard output, and which library operations ran. -/
structure Trace where
  exitCode : Nat
  stdoutBytes : List Nat
  setHeaderCalled : Bool
  deflateCalled : Bool
  deflateEndCalls : Nat
  deriving DecidableEq

/-- The main function of the source, line by line: if deflateInit2 did
not return Z_OK, return 1 (lines 16 and 17) with nothing else done; the
header is then attached (line 28) and deflate runs (line 35); if it did
not return Z_STREAM_END, return 1 (lines 36 and 37) — note that this
early return skips the deflateEnd call of line 39; otherwise deflateEnd
runs once and fwrite emits out[0 .. sizeof(out) - avail_out) (line 41),
returning 0. -/
def main (z : ZlibBehavior) : Trace :=
  if z.initRet ≠ Z_OK then
    { exitCode := 1, stdoutBytes := [], setHeaderCalled := false,
      deflateCalled := false, deflateEndCalls := 0 }
  else if z.deflateRet ≠ Z_STREAM_END then
    { exitCode := 1, stdoutBytes := [], setHeaderCalled := true,
      deflateCalled := true, deflateEndCalls := 0 }
  else
    { exitCode := 0, stdoutBytes := z.outAfter.take (256 - z.availOutAfter),
      setHeaderCalled := true, deflateCalled := true, deflateEndCalls := 1 }

/-- A library behavior in which setup succeeds but the one-shot deflate
call stops short of Z_STREAM_END (it returns Z_OK with the output
buffer exhausted, as happens when the buffer is too small). -/
def zDeflateFails : ZlibBehavior :=
  { initRet := 0, deflateRet := 0, outAfter := List.replicate 256 0,
    availOutAfter := 0, hout := by simp, havail := by simp }

/-- A library behavior for a fully successful run: both calls succeed
and deflate produced 156 bytes, leaving avail_out at 100. -/
def zSuccess : ZlibBehavior :=
  { initRet := 0, deflateRet := 1, outAfter := List.replicate 256 7,
    availOutAfter := 100, hout := by simp, havail := by norm_num }

/-- A library behavior in which deflateInit2 fails with Z_STREAM_ERROR
(as for a rejected parameter combination). -/
def zInitFails : ZlibBehavior :=
  { initRet := -2, deflateRet := 1, outAfter := List.replicate 256 0,
    availOutAfter := 256, hout := by simp, havail := by simp }

/- Helper lemmas. -/

theorem textBytes_length : textBytes.length = 81 := by decide

theorem extraBytes_length : extraBytes.length = 8 := by decide

theorem le32bytes_length (n : Nat) : (le32bytes n).length = 4 := by
  simp [le32bytes]

theorem parseCString_append (s r : List Nat) (h : ∀ b ∈ s, b ≠ 0) :
    parseCString (s ++ 0 :: r) = some (s, r) := by
  induction s with
  | nil => simp [parseCString]
  | cons a t ih =>
    have ha : a ≠ 0 := h a (by simp)
    have ih2 := ih (fun b hb => h b (by simp [hb]))
    simp [parseCString, ha, ih2]

/-- How parseMember reads a byte list of exactly the shape this program
emits, with the variable parts symbolic. -/
theorem parseMember_shape (flg t0 t1 t2 t3 xfl os h0 h1 : Nat)
    (extra name comment payload tr4a tr4b : List Nat)
    (hx : extra.length = 8)
    (hname : ∀ b ∈ name, b ≠ 0) (hcomment : ∀ b ∈ comment, b ≠ 0)
    (ha : tr4a.length = 4) (hb : tr4b.length = 4) :
    parseMember (31 :: 139 :: 8 :: flg :: t0 :: t1 :: t2 :: t3 :: xfl :: os :: 8 :: 0 ::
      (extra ++ (name ++ 0 :: (comment ++ 0 ::
        (h0 :: h1 :: (payload ++ (tr4a ++ tr4b))))))) =
      some { mtime := t0 + 256 * t1 + 65536 * t2 + 16777216 * t3, flg := flg, os := os,
             extra := extra, name := name, comment := comment, payload := payload,
             crc := le32 tr4a, isize := le32 tr4b } := by
  have hxlen : (8 : Nat) + 256 * 0 = 8 := by norm_num
  have hdrop :
      (extra ++ (name ++ 0 :: (comment ++ 0 :: (h0 :: h1 :: (payload ++ (tr4a ++ tr4b)))))).drop 8
        = name ++ 0 :: (comment ++ 0 :: (h0 :: h1 :: (payload ++ (tr4a ++ tr4b)))) :=
    List.drop_left' hx
  have htake :
      (extra ++ (name ++ 0 :: (comment ++ 0 :: (h0 :: h1 :: (payload ++ (tr4a ++ tr4b)))))).take 8
        = extra :=
    List.take_left' hx
  have hlen4 : (payload ++ (tr4a ++ tr4b)).length = payload.length + 8 := by
    simp [List.length_append, ha, hb]
  have hnotlt : ¬ ((payload ++ (tr4a ++ tr4b)).length < 8) := by omega
  have hsub : (payload ++ (tr4a ++ tr4b)).length - 8 = payload.length := by omega
  have hptake : (payload ++ (tr4a ++ tr4b)).take payload.length = payload :=
    List.take_left _ _
  have hpdrop : (payload ++ (tr4a ++ tr4b)).drop payload.length = tr4a ++ tr4b :=
    List.drop_left _ _
  have hta : (tr4a ++ tr4b).take 4 = tr4a := List.take_left' ha
  have htb : (tr4a ++ tr4b).drop 4 = tr4b := List.drop_left' ha
  simp only [parseMember, hxlen, hdrop, htake,
    parseCString_append name _ hname, parseCString_append comment _ hcomment,
    if_neg hnotlt, hsub, hptake, hpdrop, hta, htb]

theorem crc32Acc_append (a : Nat) (l1 l2 : List Nat) :
    crc32Acc a (l1 ++ l2) = crc32Acc (crc32Acc a l1) l2 := by
  simp [crc32Acc]

theorem crc32Step_lt (c : Nat) (h : c < 4294967296) : crc32Step c < 4294967296 := by
  unfold crc32Step
  split
  · have h1 : c / 2 < 2 ^ 32 := by omega
    have h2 : (0xEDB88320 : Nat) < 2 ^ 32 := by norm_num
    have := Nat.xor_lt_two_pow h1 h2
    omega
  · omega

theorem crc32Byte_lt (c b : Nat) (h : c < 4294967296) : crc32Byte c b < 4294967296 := by
  unfold crc32Byte
  have h0 : c ^^^ (b % 256) < 4294967296 := by
    have h1 : c < 2 ^ 32 := by omega
    have h2 : b % 256 < 2 ^ 32 := by
      have : b % 256 < 256 := Nat.mod_lt _ (by norm_num)
      omega
    have := Nat.xor_lt_two_pow h1 h2
    omega
  exact crc32Step_lt _ (crc32Step_lt _ (crc32Step_lt _ (crc32Step_lt _
    (crc32Step_lt _ (crc32Step_lt _ (crc32Step_lt _ (crc32Step_lt _ h0)))))))

theorem crc32Acc_lt (bs : List Nat) : ∀ a, a < 4294967296 → crc32Acc a bs < 4294967296 := by
  induction bs with
  | nil => intro a h; simpa [crc32Acc] using h
  | cons x xs ih =>
    intro a h
    have : crc32Acc a (x :: xs) = crc32Acc (crc32Byte a x) xs := by simp [crc32Acc]
    rw [this]
    exact ih _ (crc32Byte_lt a x h)

theorem crc32_lt (bs : List Nat) : crc32 bs < 4294967296 := by
  unfold crc32
  have h1 : crc32Acc 4294967295 bs < 2 ^ 32 := by
    have := crc32Acc_lt bs 4294967295 (by norm_num)
    omega
  have h2 : (4294967295 : Nat) < 2 ^ 32 := by norm_num
  have := Nat.xor_lt_two_pow h1 h2
  omega

theorem le32_le32bytes (n : Nat) (h : n < 4294967296) : le32 (le32bytes n) = n := by
  simp only [le32bytes, le32]
  omega

/- Concrete CRC-32 values, computed in chunks to keep each kernel
evaluation small. -/

theorem crcH0c1 :
    crc32Acc 4294967295 [31, 139, 8, 31, 0, 0, 0, 0, 0, 3, 8, 0, 120, 49, 4, 0]
      = 2032241842 := by decide

theorem crcH0c2 :
    crc32Acc 2032241842 [97, 98, 99, 100, 102, 111, 111, 46, 98, 97, 114, 0, 110, 111, 32, 99]
      = 1097740381 := by decide

theorem crcH0c3 :
    crc32Acc 1097740381 [111, 109, 109, 101, 110, 116, 0] = 3993417523 := by decide

theorem crcH1c1 :
    crc32Acc 4294967295 [31, 139, 8, 31, 1, 0, 0, 0, 0, 3, 8, 0, 120, 49, 4, 0]
      = 3800350941 := by decide

theorem crcH1c2 :
    crc32Acc 3800350941 [97, 98, 99, 100, 102, 111, 111, 46, 98, 97, 114, 0, 110, 111, 32, 99]
      = 1088146752 := by decide

theorem crcH1c3 :
    crc32Acc 1088146752 [111, 109, 109, 101, 110, 116, 0] = 563650811 := by decide

theorem crc32_headerNoCrc_0 : crc32 (headerNoCrc 0) = 301549772 := by
  have h : headerNoCrc 0 =
      [31, 139, 8, 31, 0, 0, 0, 0, 0, 3, 8, 0, 120, 49, 4, 0] ++
      ([97, 98, 99, 100, 102, 111, 111, 46, 98, 97, 114, 0, 110, 111, 32, 99] ++
       [111, 109, 109, 101, 110, 116, 0]) := by decide
  rw [h]
  unfold crc32
  rw [crc32Acc_append, crcH0c1, crc32Acc_append, crcH0c2, crcH0c3]
  decide

theorem crc32_headerNoCrc_1 : crc32 (headerNoCrc 1) = 3731316484 := by
  have h : headerNoCrc 1 =
      [31, 139, 8, 31, 1, 0, 0, 0, 0, 3, 8, 0, 120, 49, 4, 0] ++
      ([97, 98, 99, 100, 102, 111, 111, 46, 98, 97, 114, 0, 110, 111, 32, 99] ++
       [111, 109, 109, 101, 110, 116, 0]) := by decide
  rw [h]
  unfold crc32
  rw [crc32Acc_append, crcH1c1, crc32Acc_append, crcH1c2, crcH1c3]
  decide

theorem hcrcBytes_0 : hcrcBytes 0 = [204, 72] := by
  rw [hcrcBytes, crc32_headerNoCrc_0]

theorem hcrcBytes_1 : hcrcBytes 1 = [4, 95] := by
  rw [hcrcBytes, crc32_headerNoCrc_1]

/-- The header bytes strictly between the modification-time field and
the header CRC16: extra-flags and OS bytes, extra block, filename,
comment.  They do not depend on the modification time. -/
def midBytes : List Nat :=
  [0, 3] ++ extraBlock ++ nameBytes ++ [0] ++ commentBytes ++ [0]

/-- Everything after the header CRC16: the deflate payload and the
8-byte trailer.  It does not depend on the modification time. -/
def tailBytes (c : Codec) : List Nat :=
  c.compress textBytes ++ le32bytes (crc32 textBytes)
    ++ le32bytes (textBytes.length % 4294967296)

theorem midBytes_length : midBytes.length = 31 := by decide

/-- The gzip member split around its two time-dependent regions: the
4-byte modification-time field and the 2-byte header CRC16. -/
theorem memberOf_decomp (t : Nat) (c : Codec) :
    memberOf t c =
      [31, 139, 8, 31] ++ (le32bytes t ++ (midBytes ++ (hcrcBytes t ++ tailBytes c))) := by
  simp [memberOf, headerNoCrc, headerPrefix, midBytes, tailBytes]

theorem memberOf_take4 (t : Nat) (c : Codec) :
    (memberOf t c).take 4 = [31, 139, 8, 31] := by
  rw [memberOf_decomp]
  exact List.take_left' (by decide)

theorem memberOf_drop8 (t : Nat) (c : Codec) :
    (memberOf t c).drop 8 = midBytes ++ (hcrcBytes t ++ tailBytes c) := by
  rw [memberOf_decomp, ← List.append_assoc]
  exact List.drop_left' (by simp [le32bytes])

theorem memberOf_drop41 (t : Nat) (c : Codec) :
    (memberOf t c).drop 41 = tailBytes c := by
  rw [memberOf_decomp, ← List.append_assoc, ← List.append_assoc, ← List.append_assoc]
  exact List.drop_left' (by simp [le32bytes, hcrcBytes, midBytes_length])

theorem hcrcBytes_length (t : Nat) : (hcrcBytes t).length = 2 := by
  simp [hcrcBytes]

theorem memberOf_length (t : Nat) (c : Codec) :
    (memberOf t c).length = 41 + (tailBytes c).length := by
  rw [memberOf_decomp]
  simp only [List.length_append, le32bytes_length, midBytes_length, hcrcBytes_length,
    List.length_cons, List.length_nil]
  omega

/-- What a compliant decoder extracts from the member this program
emits: the header field constants of the source, the deflate payload,
and the trailer CRC-32 and length of the fixed input text. -/
theorem parseMember_memberOf (mtime : Nat) (c : Codec) :
    parseMember (memberOf mtime c) =
      some { mtime := mtime % 4294967296, flg := 31, os := 3,
             extra := extraBytes, name := nameBytes, comment := commentBytes,
             payload := c.compress textBytes,
             crc := crc32 textBytes, isize := 81 } := by
  have hshape : memberOf mtime c =
      31 :: 139 :: 8 :: 31 :: (mtime % 256) :: (mtime / 256 % 256) ::
      (mtime / 65536 % 256) :: (mtime / 16777216 % 256) :: 0 :: 3 :: 8 :: 0 ::
      (extraBytes ++ (nameBytes ++ 0 ::
        (commentBytes ++ 0 ::
          (crc32 (headerNoCrc mtime) % 65536 % 256 ::
           crc32 (headerNoCrc mtime) % 65536 / 256 ::
           (c.compress textBytes ++
             (le32bytes (crc32 textBytes) ++
              le32bytes (textBytes.length % 4294967296))))))) := by
    simp [memberOf, headerNoCrc, headerPrefix, extraBlock, hcrcBytes, le32bytes]
  rw [hshape]
  rw [parseMember_shape _ _ _ _ _ _ _ _ _ _ _ _ _ _ _
    (by decide) (by decide) (by decide) (le32bytes_length _) (le32bytes_length _)]
  have hmt : mtime % 256 + 256 * (mtime / 256 % 256) + 65536 * (mtime / 65536 % 256)
      + 16777216 * (mtime / 16777216 % 256) = mtime % 4294967296 := by omega
  have hcrc : le32 (le32bytes (crc32 textBytes)) = crc32 textBytes :=
    le32_le32bytes _ (crc32_lt _)
  have hsz : le32 (le32bytes (textBytes.length % 4294967296)) = 81 := by
    rw [textBytes_length]
    norm_num [le32bytes, le32]
  rw [hmt, hcrc, hsz]

/-- C1: for every run that exits with status 0, decompressing the bytes
written to standard output with a standards-compliant gzip decoder
yields exactly the fixed two-line emergency-broadcast text (without its
terminating NUL), and the 4-byte CRC32 and 4-byte length in the gzip
trailer equal the CRC32 and byte length of that original input. -/
theorem C1_roundtrip_and_trailer (mtime : Nat) (c : Codec)
    (h : c.decompress (c.compress textBytes) = some textBytes) :
    ∃ f : GzFields, parseMember (memberOf mtime c) = some f ∧
      c.decompress f.payload = some textBytes ∧
      f.crc = crc32 textBytes ∧ f.isize = textBytes.length := by
  refine ⟨_, parseMember_memberOf mtime c, h, rfl, ?_⟩
  rw [textBytes_length]

/-- Witness for C1: the hypothesis holds for the identity coder at
modification time 0. -/
theorem C1_roundtrip_and_trailer_witness :
    ∃ f : GzFields, parseMember (memberOf 0 idCodec) = some f ∧
      idCodec.decompress f.payload = some textBytes ∧
      f.crc = crc32 textBytes ∧ f.isize = textBytes.length :=
  C1_roundtrip_and_trailer 0 idCodec rfl

/-- C2: whenever the one-shot deflate call does not report
Z_STREAM_END, the program exits with status 1 and writes no bytes at
all to standard output. -/
theorem C2_failure_writes_nothing (z : ZlibBehavior)
    (h1 : z.initRet = Z_OK) (h2 : z.deflateRet ≠ Z_STREAM_END) :
    (main z).exitCode = 1 ∧ (main z).stdoutBytes = [] := by
  simp [main, h1, h2]

/-- Witness for C2: a run whose deflate call stops short. -/
theorem C2_failure_writes_nothing_witness :
    (main zDeflateFails).exitCode = 1 ∧ (main zDeflateFails).stdoutBytes = [] :=
  C2_failure_writes_nothing zDeflateFails rfl (by decide)

/-- C3: the claim that the encoder context is torn down exactly once on
every path that reaches a compression attempt FAILS on the code: when
deflate does not return Z_STREAM_END, main returns 1 on line 37 before
ever reaching the deflateEnd call on line 39, so on that path deflate
ran but the context is torn down zero times. -/
theorem C3_teardown_skipped_on_deflate_failure :
    (main zDeflateFails).deflateCalled = true ∧
    (main zDeflateFails).deflateEndCalls = 0 ∧
    (main zDeflateFails).exitCode = 1 := by decide

/-- C4: the exit status is 0 exactly when initialization returned Z_OK
and the compression call returned Z_STREAM_END, and 1 in every other
case — no other status is possible. -/
theorem C4_exit_codes (z : ZlibBehavior) :
    (main z).exitCode =
      if z.initRet = Z_OK ∧ z.deflateRet = Z_STREAM_END then 0 else 1 := by
  by_cases h1 : z.initRet = Z_OK <;> by_cases h2 : z.deflateRet = Z_STREAM_END <;>
    simp [main, h1, h2]

/-- C5: in every successful run the gzip header carries the filename
foo.bar, the comment no comment, and the 8 literal extra bytes, the
latter emitted after a 2-byte little-endian length prefix of 8. -/
theorem C5_header_fields (mtime : Nat) (c : Codec) :
    ∃ f : GzFields, parseMember (memberOf mtime c) = some f ∧
      f.name = strBytes "foo.bar" ∧ f.comment = strBytes "no comment" ∧
      f.extra = [120, 49, 4, 0, 97, 98, 99, 100] ∧
      extraBlock = 8 :: 0 :: f.extra :=
  ⟨_, parseMember_memberOf mtime c, rfl, rfl, rfl, rfl⟩

/-- C6: on success the emit step writes exactly the produced byte
count — 256 minus the remaining avail_out — and those bytes are the
corresponding prefix of the output buffer, verbatim. -/
theorem C6_emit_exact_count (z : ZlibBehavior)
    (h1 : z.initRet = Z_OK) (h2 : z.deflateRet = Z_STREAM_END) :
    (main z).stdoutBytes = z.outAfter.take (256 - z.availOutAfter) ∧
    (main z).stdoutBytes.length = 256 - z.availOutAfter := by
  have hmain : (main z).stdoutBytes = z.outAfter.take (256 - z.availOutAfter) := by
    simp [main, h1, h2]
  refine ⟨hmain, ?_⟩
  rw [hmain, List.length_take, z.hout]
  have := z.havail
  omega

/-- Witness for C6: a successful run that produced 156 bytes. -/
theorem C6_emit_exact_count_witness :
    (main zSuccess).stdoutBytes = zSuccess.outAfter.take (256 - zSuccess.availOutAfter) ∧
    (main zSuccess).stdoutBytes.length = 256 - zSuccess.availOutAfter :=
  C6_emit_exact_count zSuccess rfl rfl

/-- C7: if deflateInit2 does not return Z_OK, the program exits with a
non-zero status and nothing further happens: no header attachment, no
deflate call, no teardown, and no write to standard output. -/
theorem C7_init_failure_stops_everything (z : ZlibBehavior) (h : z.initRet ≠ Z_OK) :
    (main z).exitCode = 1 ∧ (main z).setHeaderCalled = false ∧
    (main z).deflateCalled = false ∧ (main z).stdoutBytes = [] ∧
    (main z).deflateEndCalls = 0 := by
  simp [main, h]

/-- Witness for C7: a run whose deflateInit2 fails with Z_STREAM_ERROR. -/
theorem C7_init_failure_stops_everything_witness :
    (main zInitFails).exitCode = 1 ∧ (main zInitFails).setHeaderCalled = false ∧
    (main zInitFails).deflateCalled = false ∧ (main zInitFails).stdoutBytes = [] ∧
    (main zInitFails).deflateEndCalls = 0 :=
  C7_init_failure_stops_everything zInitFails (by decide)

/-- C8 counterexample: the outputs of two successful runs at
modification times 0 and 1 agree on bytes 0 to 3 yet differ somewhere
at or past byte 8 — outside the modification-time field, which occupies
bytes 4 to 7 — so the streams are NOT identical up to that field alone:
the 2-byte header CRC16 covers the time bytes and differs too. -/
theorem C8_not_only_mtime_differs :
    (memberOf 0 idCodec).take 4 = (memberOf 1 idCodec).take 4 ∧
    (memberOf 0 idCodec).drop 8 ≠ (memberOf 1 idCodec).drop 8 := by
  refine ⟨by rw [memberOf_take4, memberOf_take4], ?_⟩
  rw [memberOf_drop8, memberOf_drop8, hcrcBytes_0, hcrcBytes_1]
  intro h
  have h2 := (List.append_right_inj midBytes).mp h
  have h3 := (List.append_left_inj (tailBytes idCodec)).mp h2
  exact absurd h3 (by decide)

/-- C8 amended: for any two successful runs the byte streams written to
standard output have the same length and are identical except possibly
in the 4-byte modification-time field (bytes 4 to 7) and in the 2-byte
header CRC16 (bytes 39 and 40), which is computed over the header bytes
including the modification time. -/
theorem C8_identical_except_mtime_and_hcrc (t1 t2 : Nat) (c : Codec) :
    (memberOf t1 c).length = (memberOf t2 c).length ∧
    (memberOf t1 c).take 4 = (memberOf t2 c).take 4 ∧
    ((memberOf t1 c).drop 8).take 31 = ((memberOf t2 c).drop 8).take 31 ∧
    (memberOf t1 c).drop 41 = (memberOf t2 c).drop 41 := by
  refine ⟨?_, ?_, ?_, ?_⟩
  · rw [memberOf_length, memberOf_length]
  · rw [memberOf_take4, memberOf_take4]
  · rw [memberOf_drop8, memberOf_drop8,
      List.take_left' midBytes_length, List.take_left' midBytes_length]
  · rw [memberOf_drop41, memberOf_drop41]

/-- C9: in every run the program writes at most 256 bytes — the size of
the fixed stack output buffer — and what it writes is a prefix of that
buffer's contents. -/
theorem C9_output_bounded_prefix (z : ZlibBehavior) :
    (main z).stdoutBytes.length ≤ 256 ∧ (main z).stdoutBytes <+: z.outAfter := by
  by_cases h1 : z.initRet = Z_OK
  · by_cases h2 : z.deflateRet = Z_STREAM_END
    · refine ⟨?_, ?_⟩
      · have hmain : (main z).stdoutBytes = z.outAfter.take (256 - z.availOutAfter) := by
          simp [main, h1, h2]
        rw [hmain, List.length_take, z.hout]
        omega
      · have hmain : (main z).stdoutBytes = z.outAfter.take (256 - z.availOutAfter) := by
          simp [main, h1, h2]
        rw [hmain]
        exact List.take_prefix _ _
    · constructor <;> simp [main, h1, h2]
  · constructor <;> simp [main, h1]

/-- C10: in every successful run the gzip header declares originating
OS 3 (Unix) and sets the text-hint flag (bit 0 of the flag byte),
independent of the platform. -/
theorem C10_os_and_text_flag (mtime : Nat) (c : Codec) :
    ∃ f : GzFields, parseMember (memberOf mtime c) = some f ∧
      f.os = 3 ∧ f.flg.testBit 0 = true := by
  refine ⟨_, parseMember_memberOf mtime c, rfl, ?_⟩
  show Nat.testBit 31 0 = true
  decide

end GzTheWorks
